import Mathlib

/-!
Verification of the positionlib module: a shallow embedding of its data
model (ICRS positions and subclasses, Topos local frames, the time
reference consumed from timelib) and of the operations the specification
describes, with the external numeric kernels (to_polar, refract, exp,
sin/cos, rot_z, compute_limb_angle, JulianDate construction) abstracted
as function parameters, exactly as the module consumes them.
Machine floats are modelled as exact rationals.
-/

/-- A Python exception outcome observable from the module: an unguarded
AttributeError, or a ValueError carrying its message. -/
inductive Err where
  | attributeError : Err
  | valueError : String → Err
deriving DecidableEq

/-- A 3-vector of rationals standing for a numpy float64 triple. -/
structure V3 where
  x : ℚ
  y : ℚ
  z : ℚ
deriving DecidableEq

/-- Componentwise difference of two 3-vectors. -/
def V3.sub (a b : V3) : V3 := ⟨a.x - b.x, a.y - b.y, a.z - b.z⟩

/-- Euclidean dot product of two 3-vectors. -/
def V3.dot (a b : V3) : ℚ := a.x * b.x + a.y * b.y + a.z * b.z

/-- A 3 by 3 matrix given by rows. -/
structure M3 where
  r0 : V3
  r1 : V3
  r2 : V3
deriving DecidableEq

/-- The einsum contraction ij...,j...->i... used throughout the module:
premultiplication of a column vector by a matrix. -/
def M3.mulVec (m : M3) (v : V3) : V3 := ⟨m.r0.dot v, m.r1.dot v, m.r2.dot v⟩

/-- The identity matrix, used as a concrete instance in examples. -/
def idM3 : M3 := ⟨⟨1, 0, 0⟩, ⟨0, 1, 0⟩, ⟨0, 0, 1⟩⟩

/-- The time reference consumed from timelib: terrestrial time, barycentric
dynamical time, Greenwich apparent sidereal time in hours, and the
precession-nutation matrix pair held in the fields M and MT. -/
structure JD where
  tt : ℚ
  tdb : ℚ
  gast : ℚ
  M : M3
  MT : M3
deriving DecidableEq

/-- ICRS.__init__: a position in AU, an optional velocity in AU per day and
an optional time. -/
structure ICRS where
  position : V3
  velocity : Option V3
  jd : Option JD
deriving DecidableEq

/-- ICRS.__sub__: the new position is self minus body; the velocity is None
when either operand carries none, and otherwise body minus self; the time
of self is kept. -/
def ICRS.sub (self body : ICRS) : ICRS :=
  { position := self.position.sub body.position
    velocity :=
      match self.velocity, body.velocity with
      | some sv, some bv => some (bv.sub sv)
      | _, _ => none
    jd := self.jd }

/-- The epoch argument accepted by ICRS.radec, as a closed variant: Python
None, a JulianDate instance, a float, the literal string for epoch-of-date,
or any other value. -/
inductive Epoch where
  | pyNone : Epoch
  | jdate : JD → Epoch
  | flt : ℚ → Epoch
  | date : Epoch
  | other : Epoch

/-- The message of the invalid-argument ValueError raised by ICRS.radec. -/
def epochErrMsg : String :=
  "the epoch= must be a Julian date, a floating point Terrestrial Time (TT), or the string \"date\" for epoch-of-date"

/-- The epoch-resolution and rotation prefix of ICRS.radec, ending with the
vector handed to to_polar.  JulianDate construction from a float is the
external timelib constructor, passed in as ofTT.  An absent self.jd reached
through the date sentinel is dereferenced for its matrix, which in Python
is an unguarded AttributeError on None. -/
def ICRS.radecPosition (ofTT : ℚ → JD) (self : ICRS) (epoch : Epoch) :
    Except Err V3 :=
  match epoch with
  | Epoch.pyNone => Except.ok self.position
  | Epoch.jdate j => Except.ok (j.M.mulVec self.position)
  | Epoch.flt t => Except.ok ((ofTT t).M.mulVec self.position)
  | Epoch.date =>
      match self.jd with
      | some j => Except.ok (j.M.mulVec self.position)
      | none => Except.error Err.attributeError
  | Epoch.other => Except.error (Err.valueError epochErrMsg)

/-- ICRS.radec with the external polar decomposition abstracted as toPolar:
the epoch resolution and rotation above, then polar decomposition of the
resulting vector. -/
def ICRS.radec (ofTT : ℚ → JD) (toPolar : V3 → ℚ × ℚ × ℚ) (self : ICRS)
    (epoch : Epoch) : Except Err (ℚ × ℚ × ℚ) :=
  match self.radecPosition ofTT epoch with
  | Except.ok p => Except.ok (toPolar p)
  | Except.error e => Except.error e

/-- The local-frame derivation of Topos.__init__, as a function of the sine
and cosine values the external trig kernel returns for the latitude and the
longitude: the vectors up, north and west in that order. -/
def toposFrame (sinlat coslat sinlon coslon : ℚ) : V3 × V3 × V3 :=
  (⟨coslat * coslon, coslat * sinlon, sinlat⟩,
   ⟨-sinlat * coslon, -sinlat * sinlon, coslat⟩,
   ⟨sinlon, -coslon, 0⟩)

/-- The observer fields Astrometric.apparent reads when deciding the
Earth-deflection flag: the geocentric marker and the observer position. -/
structure AstroObserver where
  geocentric : Bool
  position : V3

/-- An Astrometric position together with its observer back-reference. -/
structure AstroPos where
  position : V3
  observer : AstroObserver

/-- The include_earth_deflection flag computed inside Astrometric.apparent:
False for a geocentric observer regardless of geometry, and otherwise the
comparison of the limb angle returned by the external compute_limb_angle
kernel at (body position, observer position) against 0.8 radians.  The
kernel is abstracted as limbKernel, returning the pair
(limb_angle, nadir_angle). -/
def AstroPos.includeEarthDeflection (limbKernel : V3 → V3 → ℚ × ℚ)
    (self : AstroPos) : Bool :=
  if self.observer.geocentric then false
  else decide ((0.8 : ℚ) ≤ (limbKernel self.position self.observer.position).1)

/-- The temperature argument of Apparent.altaz: Python None, the standard
sentinel string, or an explicit value in degrees Celsius. -/
inductive TempArg where
  | pyNone : TempArg
  | standard : TempArg
  | value : ℚ → TempArg

/-- The pressure argument of Apparent.altaz: the standard sentinel string or
an explicit value in millibars. -/
inductive PressArg where
  | standard : PressArg
  | value : ℚ → PressArg

/-- The altitude as Apparent.altaz returns it: either the bare unrefracted
polar-decomposition angle in radians, or the output of the external refract
kernel, wrapped back from degrees. -/
inductive AltOut where
  | unrefracted : ℚ → AltOut
  | refracted : ℚ → AltOut
deriving DecidableEq

/-- The Topos fields Apparent.altaz reads: the elevation in meters. -/
structure ToposCtx where
  elevation_m : ℚ
deriving DecidableEq

/-- The attributes the try block of Apparent.altaz looks up on the observer;
either may be missing on an observer that was not produced by a Topos. -/
structure ObserverCtx where
  topos : Option ToposCtx
  altaz_rotation : Option M3
deriving DecidableEq

/-- An Apparent position with its optional observer back-reference. -/
structure ApparentPos where
  position : V3
  observer : Option ObserverCtx
deriving DecidableEq

/-- The message of the ValueError raised by Apparent.altaz when no Topos is
reachable. -/
def altazErrMsg : String :=
  "to compute an apparent position, you must observe from a specific Earth location that you specify using a Topos instance"

/-- The pressure value Apparent.altaz uses once a temperature is given: the
standard sentinel becomes the barometric model 1010 times exp of minus the
elevation in meters over 9100, and an explicit value passes through.  The
numpy exp kernel is abstracted as expF. -/
def pressValue (expF : ℚ → ℚ) (pressure_mbar : PressArg) (t : ToposCtx) : ℚ :=
  match pressure_mbar with
  | PressArg.standard => 1010 * expF (-t.elevation_m / 9100)
  | PressArg.value p => p

/-- Apparent.altaz with the external kernels abstracted: toPolar for
to_polar, refract, expF for numpy exp, and the RAD2DEG constant.  A failed
attribute lookup anywhere in the try block is caught and re-raised as the
documented ValueError; otherwise the position is rotated by the horizon
rotation, polar-decomposed into (r, alt, az), and the altitude is refracted
exactly when a temperature argument is present, with the standard
temperature sentinel replaced by 10.  The result is the triple
(altitude, azimuth, distance). -/
def ApparentPos.altaz (toPolar : V3 → ℚ × ℚ × ℚ) (refract : ℚ → ℚ → ℚ → ℚ)
    (expF : ℚ → ℚ) (rad2deg : ℚ) (self : ApparentPos)
    (temperature_C : TempArg) (pressure_mbar : PressArg) :
    Except Err (AltOut × ℚ × ℚ) :=
  match self.observer with
  | none => Except.error (Err.valueError altazErrMsg)
  | some obs =>
    match obs.topos, obs.altaz_rotation with
    | some t, some R =>
      let polar := toPolar (R.mulVec self.position)
      let r_AU := polar.1
      let alt := polar.2.1
      let az := polar.2.2
      match temperature_C with
      | TempArg.pyNone => Except.ok (AltOut.unrefracted alt, az, r_AU)
      | TempArg.standard =>
          Except.ok (AltOut.refracted
            (refract (alt * rad2deg) 10 (pressValue expF pressure_mbar t)),
            az, r_AU)
      | TempArg.value c =>
          Except.ok (AltOut.refracted
            (refract (alt * rad2deg) c (pressValue expF pressure_mbar t)),
            az, r_AU)
    | _, _ => Except.error (Err.valueError altazErrMsg)

/-- The attribute resolution Apparent.altaz attempts: an observer carrying
both a topos and an altaz_rotation attribute. -/
def ApparentPos.toposResolved (self : ApparentPos) : Bool :=
  match self.observer with
  | some obs => obs.topos.isSome && obs.altaz_rotation.isSome
  | none => false

/-- The position and velocity pair returned by the gcrs method of a target
of Geocentric.observe. -/
structure GcrsOut where
  position : V3
  velocity : V3
deriving DecidableEq

/-- The gcrs capability surface of a Geocentric.observe target: the
attribute may be missing altogether, present but bound to Python None, or a
callable from the time to a GCRS position and velocity. -/
inductive GcrsCapability where
  | missing : GcrsCapability
  | noneValue : GcrsCapability
  | method : (Option JD → GcrsOut) → GcrsCapability

/-- The message of the ValueError Geocentric.observe documents for a target
without a usable gcrs method. -/
def gcrsErrMsg : String :=
  "currently a Geocentric location can only observe an object that can generate a GCRS position through a .gcrs() method"

/-- Geocentric.observe.  The two-argument getattr call raises an unguarded
AttributeError when the attribute is missing, before the None check that
guards the documented ValueError ever runs; with a callable attribute the
result is the differenced position and velocity handed to the Apparent
constructor (an observer without a velocity dereferences None for the
velocity components, another unguarded AttributeError). -/
def geocentricObserve (self : ICRS) (other : GcrsCapability) :
    Except Err (V3 × V3) :=
  match other with
  | GcrsCapability.missing => Except.error Err.attributeError
  | GcrsCapability.noneValue => Except.error (Err.valueError gcrsErrMsg)
  | GcrsCapability.method f =>
      let g := f self.jd
      match self.velocity with
      | some sv => Except.ok (g.position.sub self.position, g.velocity.sub sv)
      | none => Except.error Err.attributeError

/-- ITRF_to_GCRS with the external rot_z kernel and the TAU constant
abstracted: the sidereal spin about the polar axis by the angle
gast times TAU over 24, then premultiplication by the MT field of the time
reference.  No velocity is converted: the function takes and returns a
single position vector. -/
def ITRF_to_GCRS (rot_z : ℚ → M3) (tau : ℚ) (jd : JD) (rITRF : V3) : V3 :=
  jd.MT.mulVec ((rot_z (jd.gast * tau / 24)).mulVec rITRF)

/-- The conversion as claim C8 words it: the same sidereal spin, followed by
premultiplication by the matrix the data model of the spec names M, rather
than by the MT field the source applies. -/
def ITRF_to_GCRS_claimed (rot_z : ℚ → M3) (tau : ℚ) (jd : JD) (rITRF : V3) :
    V3 :=
  jd.M.mulVec ((rot_z (jd.gast * tau / 24)).mulVec rITRF)

/-- Twice the identity matrix, a concrete matrix distinct from idM3. -/
def twoM3 : M3 := ⟨⟨2, 0, 0⟩, ⟨0, 2, 0⟩, ⟨0, 0, 2⟩⟩

/-- A concrete time reference with equal precession-nutation fields. -/
def jd0 : JD := { tt := 0, tdb := 0, gast := 0, M := idM3, MT := idM3 }

/-- A concrete time reference whose M and MT fields differ. -/
def jdMne : JD := { tt := 0, tdb := 0, gast := 0, M := idM3, MT := twoM3 }

/-- A concrete rot_z kernel: the identity rotation at every angle. -/
def rotZ0 : ℚ → M3 := fun _ => idM3

/-- A concrete JulianDate constructor standing for the timelib one. -/
def ofTT0 : ℚ → JD := fun t => { tt := t, tdb := t, gast := 0, M := idM3, MT := idM3 }

/-- A concrete polar-decomposition kernel used in witnesses. -/
def toPolar0 : V3 → ℚ × ℚ × ℚ := fun v => (v.x, v.y, v.z)

/-- A concrete refraction kernel used in witnesses. -/
def refract0 : ℚ → ℚ → ℚ → ℚ := fun a _ _ => a

/-- A concrete exp kernel used in witnesses; it sends 0 to 1 as exp does. -/
def expF1 : ℚ → ℚ := fun _ => 1

/-- A concrete moving Position: zero position, unit velocity, at jd0. -/
def exA : ICRS := { position := ⟨0, 0, 0⟩, velocity := some ⟨1, 0, 0⟩, jd := some jd0 }

/-- A concrete resting Position at the same time jd0. -/
def exB : ICRS := { position := ⟨0, 0, 0⟩, velocity := some ⟨0, 0, 0⟩, jd := some jd0 }

/-- A concrete Position constructed without a time. -/
def noJdPos : ICRS := { position := ⟨1, 1, 1⟩, velocity := none, jd := none }

/-- A concrete Geocentric observer position with a velocity. -/
def exGeoSelf : ICRS := { position := ⟨0, 0, 0⟩, velocity := some ⟨0, 0, 0⟩, jd := some jd0 }

/-- A concrete Apparent position with no observer attribute at all. -/
def exBareApparent : ApparentPos := { position := ⟨1, 0, 0⟩, observer := none }

/-- A concrete Topos context at sea level. -/
def exTopos0 : ToposCtx := { elevation_m := 0 }

/-- A concrete resolved observer context. -/
def exObsCtx : ObserverCtx := { topos := some exTopos0, altaz_rotation := some idM3 }

/-- A concrete Apparent position whose observer chain resolves. -/
def exApparent : ApparentPos := { position := ⟨1, 2, 3⟩, observer := some exObsCtx }

/-- C1: in Astrometric.apparent the Earth-deflection inclusion flag is False
for every geocentric observer regardless of the limb angle, and for every
non-geocentric observer it is True exactly when the limb angle returned by
the limb-angle kernel at (body position, observer position) is at least 0.8
radians, with the boundary value 0.8 itself included. -/
theorem C1_deflection_flag (limbKernel : V3 → V3 → ℚ × ℚ) (self : AstroPos) :
    (self.observer.geocentric = true →
      self.includeEarthDeflection limbKernel = false) ∧
    (self.observer.geocentric = false →
      (self.includeEarthDeflection limbKernel = true ↔
        (0.8 : ℚ) ≤ (limbKernel self.position self.observer.position).1)) ∧
    (self.observer.geocentric = false →
      (limbKernel self.position self.observer.position).1 = 0.8 →
      self.includeEarthDeflection limbKernel = true) := by
  refine ⟨fun h => ?_, fun h => ?_, fun h hb => ?_⟩
  · simp [AstroPos.includeEarthDeflection, h]
  · simp [AstroPos.includeEarthDeflection, h]
  · simp [AstroPos.includeEarthDeflection, h, hb]

/-- C2: evaluated at a target with no gcrs attribute, Geocentric.observe
fails with the unguarded AttributeError raised by the two-argument getattr
call, which is not the documented unsupported-target ValueError; the None
check guarding that ValueError is dead code for a missing attribute. -/
theorem C2_missing_gcrs_attribute :
    geocentricObserve exGeoSelf GcrsCapability.missing
      = Except.error Err.attributeError ∧
    Err.attributeError ≠ Err.valueError gcrsErrMsg := by
  refine ⟨rfl, fun h => ?_⟩
  exact Err.noConfusion h

/-- C3 counterexample: with A and B at the same time, both carrying a
velocity, the velocity of A - (A - B) is B.velocity minus twice A.velocity,
so it differs from the velocity of B as soon as A moves; at these concrete
inputs the two velocities are unequal, refuting the involution claim. -/
theorem C3_involution_counterexample :
    (exA.sub (exA.sub exB)).velocity ≠ exB.velocity := by
  norm_num [exA, exB, ICRS.sub, V3.sub, V3.mk.injEq]

/-- C3 amended: for Positions with the same time and both velocities
present, A - (A - B) reproduces the position of B exactly, while its
velocity is B.velocity minus twice A.velocity (the subtraction reverses the
velocity operands), which coincides with the velocity of B only when the
velocity of A vanishes. -/
theorem C3_sub_sub (A B : ICRS) (va vb : V3) (ha : A.velocity = some va)
    (hb : B.velocity = some vb) (_ht : A.jd = B.jd) :
    (A.sub (A.sub B)).position = B.position ∧
    (A.sub (A.sub B)).velocity
      = some ⟨vb.x - 2 * va.x, vb.y - 2 * va.y, vb.z - 2 * va.z⟩ := by
  constructor
  · show (A.position.sub (A.position.sub B.position)) = B.position
    cases A.position
    cases B.position
    simp [V3.sub]
  · simp only [ICRS.sub, ha, hb, V3.sub]
    congr 1
    ring_nf

/-- C3 witness: the amended statement evaluated at the concrete moving A and
resting B above. -/
theorem C3_sub_sub_witness :
    (exA.sub (exA.sub exB)).position = exB.position ∧
    (exA.sub (exA.sub exB)).velocity
      = some ⟨(0 : ℚ) - 2 * 1, (0 : ℚ) - 2 * 0, (0 : ℚ) - 2 * 0⟩ :=
  C3_sub_sub exA exB ⟨1, 0, 0⟩ ⟨0, 0, 0⟩ rfl rfl rfl

/-- C4: the difference A - B carries position A.position minus B.position;
its velocity is B.velocity minus A.velocity when both operands carry one,
and is absent when either operand carries none. -/
theorem C4_sub_components (A B : ICRS) :
    (A.sub B).position = A.position.sub B.position ∧
    (∀ va vb, A.velocity = some va → B.velocity = some vb →
      (A.sub B).velocity = some (vb.sub va)) ∧
    (A.velocity = none → (A.sub B).velocity = none) ∧
    (B.velocity = none → (A.sub B).velocity = none) := by
  refine ⟨rfl, fun va vb ha hb => ?_, fun h => ?_, fun h => ?_⟩
  · simp [ICRS.sub, ha, hb]
  · simp [ICRS.sub, h]
  · cases hA : A.velocity <;> simp [ICRS.sub, h, hA]

/-- C5 counterexample: the date sentinel is one of the accepted epoch forms,
yet on a Position carrying no time the call fails, with an AttributeError
rather than with a successful rotation, refuting the part of the claim that
says every accepted epoch form raises no error. -/
theorem C5_date_epoch_counterexample :
    ICRS.radec ofTT0 toPolar0 noJdPos Epoch.date
      = Except.error Err.attributeError := rfl

/-- C5 amended: radec raises the invalid-argument ValueError exactly for an
epoch argument that is none of None, a JulianDate, a float, or the date
sentinel; each accepted form that resolves to a time raises no error and
rotates the position by the matrix of that epoch before polar
decomposition, while the date sentinel on a Position carrying no time
dereferences the absent time and fails with an AttributeError instead. -/
theorem C5_radec_epoch (ofTT : ℚ → JD) (toPolar : V3 → ℚ × ℚ × ℚ)
    (self : ICRS) :
    (ICRS.radec ofTT toPolar self Epoch.other
      = Except.error (Err.valueError epochErrMsg)) ∧
    (ICRS.radec ofTT toPolar self Epoch.pyNone
      = Except.ok (toPolar self.position)) ∧
    (∀ j, ICRS.radec ofTT toPolar self (Epoch.jdate j)
      = Except.ok (toPolar (j.M.mulVec self.position))) ∧
    (∀ t, ICRS.radec ofTT toPolar self (Epoch.flt t)
      = Except.ok (toPolar ((ofTT t).M.mulVec self.position))) ∧
    (∀ j, self.jd = some j → ICRS.radec ofTT toPolar self Epoch.date
      = Except.ok (toPolar (j.M.mulVec self.position))) ∧
    (self.jd = none → ICRS.radec ofTT toPolar self Epoch.date
      = Except.error Err.attributeError) := by
  refine ⟨rfl, rfl, fun j => rfl, fun t => rfl, fun j hj => ?_, fun h => ?_⟩
  · simp [ICRS.radec, ICRS.radecPosition, hj]
  · simp [ICRS.radec, ICRS.radecPosition, h]

/-- C6: whenever the observer chain of an Apparent Position resolves no
Topos and horizon rotation, altaz fails with the documented ValueError for
every temperature and pressure argument and every external kernel; no
default horizon coordinate is ever returned. -/
theorem C6_altaz_missing_topos (toPolar : V3 → ℚ × ℚ × ℚ)
    (refract : ℚ → ℚ → ℚ → ℚ) (expF : ℚ → ℚ) (rad2deg : ℚ)
    (self : ApparentPos) (temperature_C : TempArg) (pressure_mbar : PressArg)
    (h : self.toposResolved = false) :
    self.altaz toPolar refract expF rad2deg temperature_C pressure_mbar
      = Except.error (Err.valueError altazErrMsg) := by
  cases hobs : self.observer with
  | none => simp [ApparentPos.altaz, hobs]
  | some obs =>
    have h2 : (obs.topos.isSome && obs.altaz_rotation.isSome) = false := by
      simpa [ApparentPos.toposResolved, hobs] using h
    cases ht : obs.topos with
    | none => simp [ApparentPos.altaz, hobs, ht]
    | some t =>
      cases hr : obs.altaz_rotation with
      | none => simp [ApparentPos.altaz, hobs, ht, hr]
      | some R =>
        rw [ht, hr] at h2
        simp at h2

/-- C6 witness: altaz evaluated on a concrete Apparent position carrying no
observer attribute. -/
theorem C6_altaz_missing_topos_witness :
    exBareApparent.altaz toPolar0 refract0 expF1 1 TempArg.pyNone
      PressArg.standard = Except.error (Err.valueError altazErrMsg) :=
  C6_altaz_missing_topos toPolar0 refract0 expF1 1 exBareApparent
    TempArg.pyNone PressArg.standard rfl

/-- C7: with the observer chain resolved, altaz with no temperature
argument returns exactly the unrefracted polar-decomposition altitude, with
no refraction kernel applied; with the standard sentinels it calls the
refraction kernel with temperature 10 and with pressure 1010 times exp of
minus the elevation in meters over 9100 millibars, and when the elevation
is 0 and the exp kernel sends 0 to 1 that pressure equals 1010. -/
theorem C7_altaz_refraction (toPolar : V3 → ℚ × ℚ × ℚ)
    (refract : ℚ → ℚ → ℚ → ℚ) (expF : ℚ → ℚ) (rad2deg : ℚ)
    (self : ApparentPos) (obs : ObserverCtx) (t : ToposCtx) (R : M3)
    (pressure_mbar : PressArg)
    (hobs : self.observer = some obs) (ht : obs.topos = some t)
    (hR : obs.altaz_rotation = some R) :
    (self.altaz toPolar refract expF rad2deg TempArg.pyNone pressure_mbar
      = Except.ok (AltOut.unrefracted (toPolar (R.mulVec self.position)).2.1,
          (toPolar (R.mulVec self.position)).2.2,
          (toPolar (R.mulVec self.position)).1)) ∧
    (self.altaz toPolar refract expF rad2deg TempArg.standard
        PressArg.standard
      = Except.ok (AltOut.refracted
          (refract ((toPolar (R.mulVec self.position)).2.1 * rad2deg) 10
            (1010 * expF (-t.elevation_m / 9100))),
          (toPolar (R.mulVec self.position)).2.2,
          (toPolar (R.mulVec self.position)).1)) ∧
    (t.elevation_m = 0 → expF 0 = 1 →
      1010 * expF (-t.elevation_m / 9100) = 1010) := by
  refine ⟨?_, ?_, fun he hexp => ?_⟩
  · simp [ApparentPos.altaz, hobs, ht, hR]
  · simp [ApparentPos.altaz, hobs, ht, hR, pressValue]
  · rw [he]
    norm_num [hexp]

/-- C7 witness: the standard-sentinel pressure at a concrete sea-level Topos
with a concrete exp kernel sending 0 to 1 is exactly 1010 millibars. -/
theorem C7_altaz_refraction_witness :
    1010 * expF1 (-exTopos0.elevation_m / 9100) = 1010 :=
  (C7_altaz_refraction toPolar0 refract0 expF1 1 exApparent exObsCtx exTopos0
    idM3 PressArg.standard rfl rfl rfl).2.2 rfl rfl

/-- C8 counterexample: at a time reference whose M and MT fields differ, the
source conversion, which premultiplies by the MT field, is not the
conversion the claim words with the data-model matrix M. -/
theorem C8_matrix_counterexample :
    ITRF_to_GCRS rotZ0 0 jdMne ⟨1, 0, 0⟩
      ≠ ITRF_to_GCRS_claimed rotZ0 0 jdMne ⟨1, 0, 0⟩ := by
  norm_num [ITRF_to_GCRS, ITRF_to_GCRS_claimed, jdMne, rotZ0, idM3, twoM3,
    M3.mulVec, V3.dot, V3.mk.injEq]

/-- C8 amended: ITRF_to_GCRS first applies the sidereal spin rotation about
the polar axis by the angle gast over 24 times TAU and then premultiplies
by the MT field of the time reference, the matrix the source convention
applies to carry true-equatorial vectors into the ICRS; only a position is
converted, no velocity. -/
theorem C8_itrf_to_gcrs (rot_z : ℚ → M3) (tau : ℚ) (jd : JD) (v : V3) :
    ITRF_to_GCRS rot_z tau jd v
      = jd.MT.mulVec ((rot_z (jd.gast * tau / 24)).mulVec v) := rfl

/-- C9: the Topos local-frame vectors are orthonormal.  For every sine and
cosine pair satisfying the Pythagorean identity, which covers every
latitude and longitude including the poles and the antimeridian, the
vectors up, north and west each have unit length and the three pairwise dot
products vanish. -/
theorem C9_topos_frame_orthonormal (sinlat coslat sinlon coslon : ℚ)
    (hlat : sinlat ^ 2 + coslat ^ 2 = 1)
    (hlon : sinlon ^ 2 + coslon ^ 2 = 1) :
    ((toposFrame sinlat coslat sinlon coslon).1).dot
        (toposFrame sinlat coslat sinlon coslon).1 = 1 ∧
    ((toposFrame sinlat coslat sinlon coslon).2.1).dot
        (toposFrame sinlat coslat sinlon coslon).2.1 = 1 ∧
    ((toposFrame sinlat coslat sinlon coslon).2.2).dot
        (toposFrame sinlat coslat sinlon coslon).2.2 = 1 ∧
    ((toposFrame sinlat coslat sinlon coslon).1).dot
        (toposFrame sinlat coslat sinlon coslon).2.1 = 0 ∧
    ((toposFrame sinlat coslat sinlon coslon).1).dot
        (toposFrame sinlat coslat sinlon coslon).2.2 = 0 ∧
    ((toposFrame sinlat coslat sinlon coslon).2.1).dot
        (toposFrame sinlat coslat sinlon coslon).2.2 = 0 := by
  unfold toposFrame V3.dot
  refine ⟨?_, ?_, ?_, ?_, ?_, ?_⟩
  · linear_combination coslat ^ 2 * hlon + hlat
  · linear_combination sinlat ^ 2 * hlon + hlat
  · linear_combination hlon
  · linear_combination (-sinlat * coslat) * hlon
  · ring
  · ring

/-- C9 witness: the north pole seen on the antimeridian, where the sine and
cosine of the latitude are 1 and 0 and those of the longitude are 0 and -1. -/
theorem C9_topos_frame_orthonormal_witness :
    ((toposFrame 1 0 0 (-1)).1).dot (toposFrame 1 0 0 (-1)).1 = 1 ∧
    ((toposFrame 1 0 0 (-1)).2.1).dot (toposFrame 1 0 0 (-1)).2.1 = 1 ∧
    ((toposFrame 1 0 0 (-1)).2.2).dot (toposFrame 1 0 0 (-1)).2.2 = 1 ∧
    ((toposFrame 1 0 0 (-1)).1).dot (toposFrame 1 0 0 (-1)).2.1 = 0 ∧
    ((toposFrame 1 0 0 (-1)).1).dot (toposFrame 1 0 0 (-1)).2.2 = 0 ∧
    ((toposFrame 1 0 0 (-1)).2.1).dot (toposFrame 1 0 0 (-1)).2.2 = 0 :=
  C9_topos_frame_orthonormal 1 0 0 (-1) (by norm_num) (by norm_num)

/-- C10: radec with the date sentinel on a Position constructed without a
time does not produce the invalid-argument ValueError of the module: the
sentinel resolves to the absent time, whose matrix dereference fails with
an unguarded AttributeError; the same call on a Position that does carry a
time succeeds with the rotation by that time. -/
theorem C10_date_without_time (ofTT : ℚ → JD) (toPolar : V3 → ℚ × ℚ × ℚ)
    (self : ICRS) (h : self.jd = none) :
    ICRS.radec ofTT toPolar self Epoch.date
      = Except.error Err.attributeError ∧
    (∀ s, ICRS.radec ofTT toPolar self Epoch.date
      ≠ Except.error (Err.valueError s)) ∧
    (∀ j other, ICRS.jd other = some j →
      ICRS.radec ofTT toPolar other Epoch.date
        = Except.ok (toPolar (j.M.mulVec other.position))) := by
  have hd : ICRS.radec ofTT toPolar self Epoch.date
      = Except.error Err.attributeError := by
    simp [ICRS.radec, ICRS.radecPosition, h]
  refine ⟨hd, fun s hs => ?_, fun j other hj => ?_⟩
  · rw [hd] at hs
    exact Err.noConfusion (Except.error.inj hs)
  · simp [ICRS.radec, ICRS.radecPosition, hj]

/-- C10 witness: the concrete Position above built without a time, and the
same call succeeding on a concrete Position carrying jd0. -/
theorem C10_date_without_time_witness :
    ICRS.radec ofTT0 toPolar0 noJdPos Epoch.date
      = Except.error Err.attributeError ∧
    (∀ s, ICRS.radec ofTT0 toPolar0 noJdPos Epoch.date
      ≠ Except.error (Err.valueError s)) ∧
    (∀ j other, ICRS.jd other = some j →
      ICRS.radec ofTT0 toPolar0 other Epoch.date
        = Except.ok (toPolar0 (j.M.mulVec other.position))) :=
  C10_date_without_time ofTT0 toPolar0 noJdPos rfl

